import Mathlib

/-!
Verification of the tokn repository: a shallow embedding of the
oauth2-server token/authorize handlers and of the jwt-service token,
refresh and revocation code, together with theorems settling the
spec claims about them.

Conventions of the embedding:
- machine integers become Nat or Int (chrono timestamps are seconds);
- fallible Rust code returning anyhow::Result becomes Except;
- the Redis and Postgres stores become explicit state values threaded
  through each handler, with each single store command atomic (the
  atomicity the spec grants to single KV commands);
- the HMAC-SHA256 primitive of the jsonwebtoken crate is not repository
  code; it is modelled as an explicit deterministic function parameter
  (secret and signing input to tag), so theorems can state exactly which
  MAC facts they use.
-/

namespace Tokn

/-! ## jwt-service: claims (src/jwt-service/src/claims.rs) -/

/-- Claims encoded in each JWT (claims.rs lines 32-48). exp and iat are
usize in the source, hence Nat here. -/
structure Claims where
  sub : String
  email : String
  exp : Nat
  iat : Nat
  jti : String
deriving DecidableEq

/-! ## jwt-service: sign and verify (src/jwt-service/src/token.rs) -/

/-- Type of the modelled HMAC-SHA256-over-encoding primitive: secret,
header alg string, payload claims, to MAC tag. Deterministic, as HMAC is. -/
abbrev MacFn := String → String → Claims → Nat

/-- Compact JWS token after parsing: the alg declared by the header, the
decoded payload, and the carried signature tag. Malformed-segment and
base64 failures happen before this representation and are outside the
claims settled here. -/
structure JwsToken where
  alg : String
  claims : Claims
  sig : Nat
deriving DecidableEq

/-- Errors of jsonwebtoken::decode relevant to this model. -/
inductive JwtError where
  | invalidAlgorithm
  | invalidSignature
  | expiredSignature
deriving DecidableEq

/-- Display strings used when a handler serializes the error. -/
def jwtErrorMessage : JwtError → String
  | .invalidAlgorithm => "InvalidAlgorithm"
  | .invalidSignature => "InvalidSignature"
  | .expiredSignature => "ExpiredSignature"

/-- Default leeway, in seconds, that jsonwebtoken::Validation::new applies
to the exp check. token.rs lines 115-116 build Validation::new(HS256) and
set only validate_exp, so this default is what validate_token runs with. -/
def jsonwebtokenDefaultLeeway : Nat := 60

/-- generate_token (token.rs lines 54-60): HS256 header, the given claims,
and the MAC of the encoded header and payload under the secret. -/
def generate_token (mac : MacFn) (claims : Claims) (secret : String) : JwsToken :=
  ⟨"HS256", claims, mac secret "HS256" claims⟩

/-- Model of jsonwebtoken::decode with an explicit leeway: the algorithm
is checked against the allowed set before any MAC work, then the MAC is
compared, then exp is validated with the strict comparison
exp < now - leeway (Nat subtraction truncates at zero exactly like the
saturating behaviour on sane clocks). -/
def decodeHs256 (mac : MacFn) (tok : JwsToken) (secret : String)
    (leeway now : Nat) : Except JwtError Claims :=
  if tok.alg ≠ "HS256" then .error .invalidAlgorithm
  else if tok.sig ≠ mac secret tok.alg tok.claims then .error .invalidSignature
  else if tok.claims.exp < now - leeway then .error .expiredSignature
  else .ok tok.claims

/-- validate_token (token.rs lines 110-123): decode with Validation::new
(HS256), validate_exp true, leeway left at the crate default. -/
def validate_token (mac : MacFn) (tok : JwsToken) (secret : String)
    (now : Nat) : Except JwtError Claims :=
  decodeHs256 mac tok secret jsonwebtokenDefaultLeeway now

/-! ## jwt-service: revocation store (src/jwt-service/src/revoke.rs) -/

/-- Redis KV state for the blacklist: entries are key, value, ttl triples,
plus an availability flag so store errors can be modelled. -/
structure KvStore where
  entries : List (String × String × Nat)
  available : Bool
deriving DecidableEq

/-- Blacklist key layout (revoke.rs lines 61 and 108). -/
def blacklistKey (jti : String) : String := "blacklist:jti:" ++ jti

/-- SET key value EX ttl: overwrites any previous entry under the key;
errors when the store is unavailable. -/
def setEx (s : KvStore) (key value : String) (ttl : Nat) : Except Unit KvStore :=
  if s.available then
    .ok ⟨(key, value, ttl) :: s.entries.filter (fun e => e.1 != key), s.available⟩
  else .error ()

/-- EXISTS key as a Bool. -/
def existsKey (s : KvStore) (key : String) : Bool :=
  s.entries.any (fun e => e.1 == key)

/-- revoke_token (revoke.rs lines 55-70): SET blacklist:jti:(jti)
"revoked" EX expiry_seconds. -/
def revoke_token (s : KvStore) (jti : String) (expiry_seconds : Nat) :
    Except Unit KvStore :=
  setEx s (blacklistKey jti) "revoked" expiry_seconds

/-- is_token_revoked (revoke.rs lines 106-117): EXISTS on the blacklist
key, a store failure surfacing as an error. -/
def is_token_revoked (s : KvStore) (jti : String) : Except Unit Bool :=
  if s.available then .ok (existsKey s (blacklistKey jti)) else .error ()

/-! ## jwt-service: validate endpoint (src/jwt-service/src/handlers/validate.rs) -/

/-- Response of POST /auth/validate: HTTP status, the valid flag, and the
body fields of ValidateResponse or ValidateErrorResponse. -/
structure ValidateHandlerResponse where
  status : Nat
  valid : Bool
  error : Option String
  claims : Option Claims
deriving DecidableEq

/-- validate_token_handler (validate.rs lines 120-176): signature plus
expiry via validate_token, then the revocation lookup; a store error on
the lookup returns 500 with valid false. -/
def validate_token_handler (mac : MacFn) (secret : String) (tok : JwsToken)
    (now : Nat) (s : KvStore) : ValidateHandlerResponse :=
  match validate_token mac tok secret now with
  | .error e => ⟨401, false, some (jwtErrorMessage e), none⟩
  | .ok claims =>
    match is_token_revoked s claims.jti with
    | .ok true => ⟨401, false, some "Token has been revoked", none⟩
    | .ok false => ⟨200, true, none, some claims⟩
    | .error _ => ⟨500, false, some "Failed to verify token status", none⟩

/-! ## jwt-service: revoke endpoint (src/jwt-service/src/handlers/revoke.rs) -/

/-- Outcome of POST /auth/revoke, one constructor per return site of the
handler. -/
inductive RevokeResult where
  | unauthorized (error : String)
  | badRequest (error : String)
  | serverError (error : String)
  | ok (message : String) (jti : String)
deriving DecidableEq

/-- revoke_token_handler (revoke.rs handler lines 110-166): validate the
token, then branch on claims.exp > now; the expired branch returns 400
without touching the store, the live branch writes the blacklist entry
with TTL claims.exp - now. -/
def revoke_token_handler (mac : MacFn) (secret : String) (tok : JwsToken)
    (now : Nat) (s : KvStore) : RevokeResult × KvStore :=
  match validate_token mac tok secret now with
  | .error _ => (.unauthorized "Invalid token", s)
  | .ok claims =>
    if claims.exp > now then
      match revoke_token s claims.jti (claims.exp - now) with
      | .error _ => (.serverError "Failed to revoke token", s)
      | .ok s1 => (.ok "Token revoked successfully" claims.jti, s1)
    else (.badRequest "Token already expired", s)

/-! ## jwt-service: refresh tokens (src/jwt-service/src/refresh.rs) -/

/-- Refresh token metadata stored in Redis (refresh.rs lines 19-26). -/
structure RefreshTokenData where
  user_id : String
  email : String
deriving DecidableEq

/-- Redis state for refresh tokens: an association list from key to the
stored JSON string. TTLs play no part in the claims settled here. -/
abbrev RStore := List (String × String)

/-- Key layout refresh_token:(handle) (refresh.rs lines 86 and 159). -/
def refreshKey (t : String) : String := "refresh_token:" ++ t

/-- GET key. -/
def rGet (s : RStore) (key : String) : Option String :=
  (s.find? (fun e => e.1 == key)).map (fun e => e.2)

/-- DEL key. -/
def rDel (s : RStore) (key : String) : RStore :=
  s.filter (fun e => e.1 != key)

/-- validate_refresh_token (refresh.rs lines 154-178): GET the key, on a
miss return the invalid-or-expired error; then DEL the key; only then
parse the JSON value, a parse failure returning the bad-format error.
The serde_json parse of RefreshTokenData is not repository code and is
passed in as a function. The state after the call is returned alongside
the result. -/
def validate_refresh_token (parse : String → Option RefreshTokenData)
    (s : RStore) (refresh_token : String) :
    Except String RefreshTokenData × RStore :=
  let key := refreshKey refresh_token
  match rGet s key with
  | none => (.error "Invalid or expired refresh token", s)
  | some v =>
    let s1 := rDel s key
    match parse v with
    | none => (.error "Invalid refresh token data format", s1)
    | some d => (.ok d, s1)

/-! ## jwt-service: two concurrent refresh consumers

The source issues GET and DEL as two separate Redis round trips
(refresh.rs lines 162-171). Each single command is atomic, so a run of
two concurrent consumers of the same handle is an interleaving of their
individual GET and DEL steps. The small-step model below decomposes
validate_refresh_token into exactly those two atomic store commands. -/

/-- Program counter of one consumer running validate_refresh_token:
start (about to GET), gotten v (GET returned v, about to DEL), denied
(GET missed: the 401 path), finished v (DEL done: the handler goes on to
mint tokens from v, the success path). -/
inductive ConsumerState where
  | start
  | gotten (v : String)
  | denied
  | finished (v : String)
deriving DecidableEq

/-- One atomic step of one consumer against the shared store. -/
def consumeStep (s : RStore) (key : String) :
    ConsumerState → RStore × ConsumerState
  | .start =>
    match rGet s key with
    | none => (s, .denied)
    | some v => (s, .gotten v)
  | .gotten v => (rDel s key, .finished v)
  | c => (s, c)

/-- Run two consumers of the same key under a schedule: true steps the
first consumer, false the second. -/
def runConsumers (key : String) :
    List Bool → RStore → ConsumerState → ConsumerState →
      RStore × ConsumerState × ConsumerState
  | [], s, c1, c2 => (s, c1, c2)
  | true :: rest, s, c1, c2 =>
    let r := consumeStep s key c1
    runConsumers key rest r.1 r.2 c2
  | false :: rest, s, c1, c2 =>
    let r := consumeStep s key c2
    runConsumers key rest r.1 c1 r.2

/-! ## oauth2-server: database rows (src/oauth2-server/src/handlers/token.rs) -/

/-- Row of the clients table read by the token handler. -/
structure ClientRec where
  client_id : String
  client_secret : String
  redirect_uri : String
deriving DecidableEq

/-- Row of the authorization_codes table. -/
structure AuthCodeRec where
  code : String
  client_id : String
  user_id : String
  redirect_uri : String
  scope : Option String
  expires_at : Int
deriving DecidableEq

/-- Row of the access_tokens table. -/
structure AccessTokenRec where
  token : String
  client_id : String
  user_id : String
  scope : Option String
  expires_at : Int
deriving DecidableEq

/-- Relational state seen by the oauth2-server handlers. The users table
plays no part in the claims settled here. Store failures (the sqlx Err
branches, all returning 500 server_error) are not modelled: every query
in this model succeeds. -/
structure Db where
  clients : List ClientRec
  authorization_codes : List AuthCodeRec
  access_tokens : List AccessTokenRec
deriving DecidableEq

/-- SELECT client_secret, redirect_uri FROM clients WHERE client_id = $1
(token.rs lines 130-139). -/
def lookup_client (db : Db) (client_id : String) : Option ClientRec :=
  db.clients.find? (fun c => c.client_id == client_id)

/-- SELECT ... FROM authorization_codes WHERE code = $1 AND client_id = $2
(token.rs lines 181-191). -/
def fetch_code (db : Db) (code client_id : String) : Option AuthCodeRec :=
  db.authorization_codes.find? (fun r => r.code == code && r.client_id == client_id)

/-- DELETE FROM authorization_codes WHERE code = $1 (token.rs lines
279-286). Removes every row carrying the code. -/
def delete_code (db : Db) (code : String) : Db :=
  { db with authorization_codes := db.authorization_codes.filter (fun r => r.code != code) }

/-- INSERT INTO access_tokens (token.rs lines 251-263). -/
def insert_access_token (db : Db) (rec : AccessTokenRec) : Db :=
  { db with access_tokens := db.access_tokens ++ [rec] }

/-! ## oauth2-server: token endpoint (src/oauth2-server/src/handlers/token.rs) -/

/-- Parsed body of POST /oauth/token (token.rs lines 20-27). The
serde_urlencoded parse step, whose failure returns 400 invalid_request,
happens before this representation. -/
structure TokenRequest where
  grant_type : String
  code : String
  redirect_uri : String
  client_id : String
  client_secret : String
deriving DecidableEq

/-- Outcome of the token handler: an RFC 6749 error body with its status,
or the access token response. -/
inductive TokenHandlerResult where
  | err (status : Nat) (error : String) (error_description : String)
  | ok (access_token : String) (token_type : String) (expires_in : Int)
deriving DecidableEq

/-- token_handler (token.rs lines 91-296) after body parsing, with the
wall clock and the freshly generated UUID access token passed in as
values. Returns the response together with the database state after the
call. The comparison on line 168 between the stored and presented client
secret is the plain Rust string inequality; see rustStrEq below for its
cost model. -/
def token_handler (db : Db) (params : TokenRequest) (now : Int)
    (new_token : String) : TokenHandlerResult × Db :=
  if params.grant_type ≠ "authorization_code" then
    (.err 400 "unsupported_grant_type" "Only authorization_code grant type is supported", db)
  else
    match lookup_client db params.client_id with
    | none => (.err 401 "invalid_client" "Client not found", db)
    | some client =>
      if client.client_secret ≠ params.client_secret then
        (.err 401 "invalid_client" "Invalid client credentials", db)
      else
        match fetch_code db params.code params.client_id with
        | none => (.err 400 "invalid_grant" "Authorization code not found", db)
        | some auth_code =>
          if auth_code.expires_at < now then
            (.err 400 "invalid_grant" "Authorization code has expired", db)
          else if auth_code.redirect_uri ≠ params.redirect_uri then
            (.err 400 "invalid_grant" "Redirect URI mismatch", db)
          else
            let db1 := insert_access_token db
              ⟨new_token, params.client_id, auth_code.user_id, auth_code.scope, now + 3600⟩
            let db2 := delete_code db1 params.code
            (.ok new_token "Bearer" 3600, db2)

/-! ## Cost model of the client secret comparison

Rust str equality first compares lengths and then the bytes left to
right, stopping at the first mismatch; it is not a constant-time
comparison. The pair below returns the verdict together with the number
of positionwise comparisons performed, so timing claims about line 168
of token.rs become statements about the second component. -/

/-- Bytewise short-circuit comparison with a step counter. -/
def memcmpSteps : List Char → List Char → Bool × Nat
  | [], [] => (true, 0)
  | x :: xs, y :: ys =>
    if x = y then
      let r := memcmpSteps xs ys
      (r.1, r.2 + 1)
    else (false, 1)
  | _, _ => (false, 0)

/-- Rust string equality with its comparison count: unequal lengths are
rejected with zero content comparisons, equal lengths compare until the
first mismatch. -/
def rustStrEq (a b : String) : Bool × Nat :=
  if a.length = b.length then memcmpSteps a.data b.data else (false, 0)

/-! ## oauth2-server: authorize endpoint (src/oauth2-server/src/handlers/authorize.rs) -/

/-- Query parameters of GET /oauth/authorize (authorize.rs lines 17-24). -/
structure AuthorizeQuery where
  response_type : String
  client_id : String
  redirect_uri : String
  scope : Option String
  state : Option String
deriving DecidableEq

/-- authorize_handler (authorize.rs lines 49-91): renders the consent
page HTML by substituting the query parameters into the fixed template
and returns it. The handler performs no validation of any kind before
rendering; the database pool parameter of the source is unused there and
is therefore absent here. -/
def authorize_handler (params : AuthorizeQuery) : String :=
  "\n<!DOCTYPE html>\n<html>\n<head>\n    <title>Authorization Request</title>\n</head>\n<body>\n    <h1>Authorization Request</h1>\n    <p>Application <strong>"
  ++ params.client_id
  ++ "</strong> wants to access your account.</p>\n    <p>Scopes: "
  ++ (params.scope.getD "profile")
  ++ "</p>\n    <form method=\"POST\" action=\"/oauth/authorize\">\n        <input type=\"hidden\" name=\"client_id\" value=\""
  ++ params.client_id
  ++ "\">\n        <input type=\"hidden\" name=\"redirect_uri\" value=\""
  ++ params.redirect_uri
  ++ "\">\n        <input type=\"hidden\" name=\"scope\" value=\""
  ++ (params.scope.getD "profile")
  ++ "\">\n        <input type=\"hidden\" name=\"state\" value=\""
  ++ (params.state.getD "")
  ++ "\">\n        <button type=\"submit\" name=\"action\" value=\"approve\">Approve</button>\n        <button type=\"submit\" name=\"action\" value=\"deny\">Deny</button>\n    </form>\n</body>\n</html>\n"

/-! ## Concrete fixtures for witnesses and counterexamples -/

/-- Deterministic stand-in for the HMAC primitive, used only to
instantiate witnesses: the tag depends on the secret length and on the
exp claim, so the two witness secrets below produce different tags. -/
def witnessMac : MacFn := fun secret _ claims => secret.length * 1000 + claims.exp

/-- Claims fixture with exp 1000. -/
def witnessClaims : Claims := ⟨"user_001", "demo@example.com", 1000, 100, "jti-1"⟩

/-- Unavailable blacklist store. -/
def downStore : KvStore := ⟨[], false⟩

/-- Available empty blacklist store. -/
def upStore : KvStore := ⟨[], true⟩

/-- Registered demo client. -/
def demoClient : ClientRec := ⟨"demo-client", "s3cret00", "http://127.0.0.1:8081/callback"⟩

/-- Authorization code row expiring at time 100. -/
def demoCode : AuthCodeRec :=
  ⟨"codeA", "demo-client", "user_001", "http://127.0.0.1:8081/callback", some "profile", 100⟩

/-- Demo database holding the client and the code. -/
def demoDb : Db := ⟨[demoClient], [demoCode], []⟩

/-- Well-formed exchange request matching demoDb. -/
def demoRequest : TokenRequest :=
  ⟨"authorization_code", "codeA", "http://127.0.0.1:8081/callback", "demo-client", "s3cret00"⟩

/-- Parse function modelling serde_json failing on the stored value. -/
def parseNone : String → Option RefreshTokenData := fun _ => none

/-- Refresh store holding one handle whose value is not valid JSON. -/
def badJsonStore : RStore := [("refresh_token:h", "not-json")]

/-! ## Helper lemmas -/

/-- A find? over a filter whose predicate excludes every find? match
returns none. -/
theorem find?_filter_none {α : Type} (p q : α → Bool)
    (h : ∀ a, p a = true → q a = false) :
    ∀ l : List α, (l.filter p).find? q = none := by
  intro l
  induction l with
  | nil => rfl
  | cons a l ih =>
    by_cases hp : p a = true
    · rw [List.filter_cons_of_pos hp, List.find?_cons_of_neg _ (by simp [h a hp]), ih]
    · rw [List.filter_cons_of_neg (by simpa using hp)]
      exact ih

/-- Filtering with a predicate leaves only elements satisfying it. -/
theorem all_filter_self {α : Type} (p : α → Bool) (l : List α) :
    (l.filter p).all p = true := by
  rw [List.all_eq_true]
  intro a ha
  exact (List.mem_filter.mp ha).2

/-- A deleted refresh key is gone from the store. -/
theorem rGet_rDel (s : RStore) (k : String) : rGet (rDel s k) k = none := by
  have h : ((s.filter (fun e => e.1 != k)).find? (fun e => e.1 == k)) = none := by
    apply find?_filter_none
    intro a ha
    simp only [bne_iff_ne, ne_eq] at ha
    simp [ha]
  unfold rGet rDel
  rw [h]
  rfl

/-- The verdict of memcmpSteps is list equality. -/
theorem memcmpSteps_fst_iff : ∀ a b : List Char, (memcmpSteps a b).1 = true ↔ a = b
  | [], [] => by simp [memcmpSteps]
  | [], _ :: _ => by simp [memcmpSteps]
  | _ :: _, [] => by simp [memcmpSteps]
  | x :: xs, y :: ys => by
    by_cases h : x = y
    · simp [memcmpSteps, h, memcmpSteps_fst_iff xs ys]
    · simp [memcmpSteps, h]

/-- The verdict of the cost-counting comparison agrees with the string
equality used on token.rs line 168, so its step count is the cost of the
comparison the handler actually performs. -/
theorem rustStrEq_fst_iff (a b : String) : (rustStrEq a b).1 = true ↔ a = b := by
  unfold rustStrEq
  by_cases h : a.length = b.length
  · rw [if_pos h, memcmpSteps_fst_iff]
    constructor
    · intro hd
      cases a
      cases b
      exact congrArg String.mk (by simpa using hd)
    · intro he
      rw [he]
  · rw [if_neg h]
    simp only [show ((false, 0) : Bool × Nat).1 = false from rfl]
    constructor
    · intro hf
      cases hf
    · intro he
      exact absurd (by rw [he]) h

/-! ## Claim theorems -/

/-- C2: the refresh consumption in refresh.rs issues GET and DEL as two
separate Redis commands rather than one atomic GETDEL, so the
interleaving in which both concurrent consumers run their GET before
either runs its DEL hands the stored value to both: both finish in the
success state and both corresponding POST /auth/refresh calls mint
tokens, falsifying the claim that at most one of two concurrent
consumers observes success. -/
theorem refresh_concurrent_double_success :
    runConsumers (refreshKey "r1") [true, false, true, false]
      [(refreshKey "r1", "data")] .start .start =
      ([], .finished "data", .finished "data") := by
  decide

set_option maxRecDepth 4000 in
/-- C5 counterexample: a token whose exp claim equals the current time is
accepted by validate_token instead of failing as Expired, because the
jsonwebtoken validation it delegates to checks exp < now - leeway with
the crate default leeway of 60 seconds; here exp = now = 1000 and the
result is ok. -/
theorem jwt_exp_equal_now_accepted :
    witnessClaims.exp = 1000 ∧
    validate_token witnessMac
        (generate_token witnessMac witnessClaims "secret-of-at-least-32-characters")
        "secret-of-at-least-32-characters" 1000 = .ok witnessClaims :=
  ⟨rfl, rfl⟩

/-- C5 amended: validate_token applies the jsonwebtoken default leeway of
60 seconds with a strict boundary: a token it signed itself is rejected
as expired exactly when exp < now - 60; in particular a token with exp
equal to now verifies successfully. -/
theorem jwt_expiry_strict_with_default_leeway (mac : MacFn) (claims : Claims)
    (secret : String) (now : Nat) :
    (validate_token mac (generate_token mac claims secret) secret now =
        .error .expiredSignature
      ↔ claims.exp < now - 60) := by
  unfold validate_token decodeHs256 generate_token jsonwebtokenDefaultLeeway
  by_cases h : claims.exp < now - 60
  · simp [h]
  · simp [h]

/-- C6: the client secret check of the token endpoint is the plain Rust
string inequality of token.rs line 168, whose comparison count depends
on where the presented secret first differs from the stored one: against
the stored secret s3cret00, a guess wrong in its first byte is decided
after 1 comparison while a guess wrong only in its last byte takes 8, so
the comparison is not constant-time; the mismatch itself is rejected
with 401 invalid_client as the claim also states. -/
theorem client_secret_compare_not_constant_time :
    rustStrEq "s3cret00" "z3cret00" = (false, 1) ∧
    rustStrEq "s3cret00" "s3cret0z" = (false, 8) ∧
    (token_handler demoDb
        ⟨"authorization_code", "codeA", "http://127.0.0.1:8081/callback",
          "demo-client", "z3cret00"⟩ 50 "tokW").1 =
      .err 401 "invalid_client" "Invalid client credentials" :=
  ⟨by decide, by decide, by decide⟩

set_option maxRecDepth 40000 in
/-- C7: the authorize handler renders the consent page unconditionally,
with no check of response_type, no client registration lookup (its pool
argument is unused) and no redirect_uri comparison: at a query with
response_type token, an unregistered client_id and a foreign
redirect_uri, it still returns the 200 HTML page reflecting all of those
values verbatim. -/
theorem authorize_reflects_unvalidated_query :
    authorize_handler
        ⟨"token", "not-a-registered-client", "http://evil.example/cb",
          none, some "XYZ"⟩ =
      "\n<!DOCTYPE html>\n<html>\n<head>\n    <title>Authorization Request</title>\n</head>\n<body>\n    <h1>Authorization Request</h1>\n    <p>Application <strong>not-a-registered-client</strong> wants to access your account.</p>\n    <p>Scopes: profile</p>\n    <form method=\"POST\" action=\"/oauth/authorize\">\n        <input type=\"hidden\" name=\"client_id\" value=\"not-a-registered-client\">\n        <input type=\"hidden\" name=\"redirect_uri\" value=\"http://evil.example/cb\">\n        <input type=\"hidden\" name=\"scope\" value=\"profile\">\n        <input type=\"hidden\" name=\"state\" value=\"XYZ\">\n        <button type=\"submit\" name=\"action\" value=\"approve\">Approve</button>\n        <button type=\"submit\" name=\"action\" value=\"deny\">Deny</button>\n    </form>\n</body>\n</html>\n" := by
  rfl

/-- C10: when the stored value under a refresh handle is not valid
RefreshTokenData JSON, validate_refresh_token still deletes the key
before parsing, so the call returns the bad-format error while the
handle is already burned: the resulting store is exactly the input store
with the key deleted, and a later GET of the key misses. -/
theorem refresh_handle_burned_on_bad_json
    (parse : String → Option RefreshTokenData) (s : RStore) (t v : String)
    (hget : rGet s (refreshKey t) = some v)
    (hbad : parse v = none) :
    (validate_refresh_token parse s t).1 = .error "Invalid refresh token data format" ∧
    (validate_refresh_token parse s t).2 = rDel s (refreshKey t) ∧
    rGet (validate_refresh_token parse s t).2 (refreshKey t) = none := by
  unfold validate_refresh_token
  simp only [hget, hbad]
  exact ⟨trivial, trivial, rGet_rDel s (refreshKey t)⟩

/-- Closed instance of the C10 theorem at a store whose single handle
maps to a non-JSON value, with a parse function that rejects it. -/
theorem refresh_handle_burned_on_bad_json_witness :
    (validate_refresh_token parseNone badJsonStore "h").1 =
        .error "Invalid refresh token data format" ∧
    (validate_refresh_token parseNone badJsonStore "h").2 =
        rDel badJsonStore (refreshKey "h") ∧
    rGet (validate_refresh_token parseNone badJsonStore "h").2 (refreshKey "h") = none :=
  refresh_handle_burned_on_bad_json parseNone badJsonStore "h" "not-json" rfl rfl

/-- C4: for every deterministic MAC primitive, claims value and secret k,
verifying the signed token under k returns exactly the original claims
while they are unexpired, and verifying it under a different secret kp
fails with the invalid-signature error; that distinct secrets yield
distinct tags on this signing input is the standard HMAC assumption and
is stated as the explicit hypothesis hmac. -/
theorem sign_verify_roundtrip_and_bad_signature (mac : MacFn) (claims : Claims)
    (k kp : String) (now : Nat)
    (hexp : now < claims.exp) (_hne : k ≠ kp)
    (hmac : mac kp "HS256" claims ≠ mac k "HS256" claims) :
    validate_token mac (generate_token mac claims k) k now = .ok claims ∧
    validate_token mac (generate_token mac claims k) kp now = .error .invalidSignature := by
  have hlee : ¬ (claims.exp < now - jsonwebtokenDefaultLeeway) := by
    unfold jsonwebtokenDefaultLeeway
    omega
  have hsig := Ne.symm hmac
  constructor
  · simp [validate_token, decodeHs256, generate_token, hlee]
  · simp [validate_token, decodeHs256, generate_token, hsig]

/-- Closed instance of the C4 theorem: a concrete MAC and two concrete
secrets of different lengths, whose tags on the witness claims differ. -/
theorem sign_verify_roundtrip_witness :
    validate_token witnessMac (generate_token witnessMac witnessClaims "kk") "kk" 500 =
        .ok witnessClaims ∧
    validate_token witnessMac (generate_token witnessMac witnessClaims "kk") "kkk" 500 =
        .error .invalidSignature :=
  sign_verify_roundtrip_and_bad_signature witnessMac witnessClaims "kk" "kkk" 500
    (by decide) (by decide) (by decide)

/-- C3: the validate endpoint fails closed: the response carries valid
true only when signature and expiry verification succeeded and the
revocation lookup succeeded with not-revoked; and whenever the token
verified but the revocation lookup for claims.jti returns a store error,
the response is status 500 with valid false. -/
theorem validate_endpoint_fails_closed (mac : MacFn) (secret : String)
    (tok : JwsToken) (now : Nat) (s : KvStore) :
    ((validate_token_handler mac secret tok now s).valid = true →
      ∃ claims, validate_token mac tok secret now = .ok claims ∧
        is_token_revoked s claims.jti = .ok false) ∧
    (∀ claims, validate_token mac tok secret now = .ok claims →
      is_token_revoked s claims.jti = .error () →
        validate_token_handler mac secret tok now s =
          ⟨500, false, some "Failed to verify token status", none⟩) := by
  unfold validate_token_handler
  rcases hv : validate_token mac tok secret now with e | claims
  · refine ⟨fun h => absurd h (by simp), fun c hc _ => Except.noConfusion hc⟩
  · rcases hr : is_token_revoked s claims.jti with u | b
    · refine ⟨fun h => ?_, fun c hc hrc => ?_⟩
      · simp [hr] at h
      · cases hc
        simp [hr]
    · cases b
      · refine ⟨fun _ => ⟨claims, rfl, hr⟩, fun c hc hrc => ?_⟩
        cases hc
        rw [hr] at hrc
        cases hrc
      · refine ⟨fun h => ?_, fun c hc hrc => ?_⟩
        · simp [hr] at h
        · cases hc
          rw [hr] at hrc
          cases hrc

/-- Closed instance of the C3 theorem: against an unavailable store, a
token that verifies is answered with 500 and valid false. -/
theorem validate_endpoint_fails_closed_witness :
    validate_token_handler witnessMac "sek"
        (generate_token witnessMac witnessClaims "sek") 500 downStore =
      ⟨500, false, some "Failed to verify token status", none⟩ :=
  (validate_endpoint_fails_closed witnessMac "sek"
      (generate_token witnessMac witnessClaims "sek") 500 downStore).2
    witnessClaims rfl rfl

/-- C9: for a token that verifies, the revoke endpoint answers 400 with
the already-expired error and leaves the store untouched whenever
claims.exp is at most now, and when claims.exp exceeds now and the store
is reachable it writes exactly the blacklist entry for claims.jti with
value revoked and TTL claims.exp - now. -/
theorem revoke_expired_rejected_no_write (mac : MacFn) (secret : String)
    (tok : JwsToken) (now : Nat) (s : KvStore) (claims : Claims)
    (hok : validate_token mac tok secret now = .ok claims) :
    (claims.exp ≤ now →
      revoke_token_handler mac secret tok now s =
        (.badRequest "Token already expired", s)) ∧
    (now < claims.exp → s.available = true →
      revoke_token_handler mac secret tok now s =
        (.ok "Token revoked successfully" claims.jti,
         ⟨(blacklistKey claims.jti, "revoked", claims.exp - now)
             :: s.entries.filter (fun e => e.1 != blacklistKey claims.jti), true⟩)) := by
  unfold revoke_token_handler
  rw [hok]
  constructor
  · intro hle
    have hng : ¬ claims.exp > now := by omega
    simp [hng]
  · intro hlt hav
    have hgt : claims.exp > now := hlt
    simp only [hgt, if_pos hgt]
    simp [revoke_token, setEx, hav]

/-- Closed instance of the C9 theorem: the witness token verifies at now
equal to its exp (inside the 60 second jsonwebtoken leeway) yet is
already expired for the revoke check, so the call returns 400 and the
reachable store is unchanged. -/
theorem revoke_expired_rejected_no_write_witness :
    revoke_token_handler witnessMac "sek"
        (generate_token witnessMac witnessClaims "sek") 1000 upStore =
      (.badRequest "Token already expired", upStore) :=
  (revoke_expired_rejected_no_write witnessMac "sek"
      (generate_token witnessMac witnessClaims "sek") 1000 upStore witnessClaims rfl).1
    (by decide)

/-- C1: a successful exchange of an authorization code leaves a database
state, the one in which the success response is returned, from which
every row carrying that code has been deleted; replaying the same
request against that state is answered with 400 invalid_grant. -/
theorem authorization_code_single_use (db : Db) (req : TokenRequest)
    (now : Int) (t tn : String)
    (h : (token_handler db req now t).1 = .ok t "Bearer" 3600) :
    ((token_handler db req now t).2.authorization_codes.all
        (fun r => r.code != req.code)) = true ∧
    (token_handler (token_handler db req now t).2 req now tn).1 =
      .err 400 "invalid_grant" "Authorization code not found" := by
  unfold token_handler at h
  split at h
  next => exact absurd h (by simp)
  next hgt =>
    split at h
    next hcl => exact absurd h (by simp)
    next client hcl =>
      split at h
      next => exact absurd h (by simp)
      next hsec =>
        split at h
        next hfc => exact absurd h (by simp)
        next auth_code hfc =>
          split at h
          next => exact absurd h (by simp)
          next hexp =>
            split at h
            next => exact absurd h (by simp)
            next hred =>
              rw [ne_eq, not_not] at hgt hsec hred
              have hrun : token_handler db req now t =
                  (.ok t "Bearer" 3600,
                   delete_code (insert_access_token db
                     ⟨t, req.client_id, auth_code.user_id, auth_code.scope, now + 3600⟩)
                     req.code) := by
                unfold token_handler
                simp [hgt, hcl, hsec, hfc, hexp, hred]
              rw [hrun]
              constructor
              · exact all_filter_self _ _
              · have hcl2 : lookup_client (delete_code (insert_access_token db
                    ⟨t, req.client_id, auth_code.user_id, auth_code.scope, now + 3600⟩)
                    req.code) req.client_id = some client := hcl
                have hfc2 : fetch_code (delete_code (insert_access_token db
                    ⟨t, req.client_id, auth_code.user_id, auth_code.scope, now + 3600⟩)
                    req.code) req.code req.client_id = none := by
                  have h0 : ∀ a : AuthCodeRec,
                      (fun r : AuthCodeRec => r.code != req.code) a = true →
                      (fun r : AuthCodeRec =>
                        r.code == req.code && r.client_id == req.client_id) a = false := by
                    intro a ha
                    simp only [bne_iff_ne, ne_eq] at ha
                    simp [ha]
                  exact find?_filter_none _ _ h0 _
                unfold token_handler
                simp [hgt, hcl2, hsec, hfc2]

/-- Closed instance of the C1 theorem: exchanging the demo code succeeds
at now = 50; afterwards no row carries the code and the replay is
answered with invalid_grant. -/
theorem authorization_code_single_use_witness :
    ((token_handler demoDb demoRequest 50 "tokT").2.authorization_codes.all
        (fun r => r.code != demoRequest.code)) = true ∧
    (token_handler (token_handler demoDb demoRequest 50 "tokT").2 demoRequest 50 "tokU").1 =
      .err 400 "invalid_grant" "Authorization code not found" :=
  authorization_code_single_use demoDb demoRequest 50 "tokT" "tokU" (by decide)

/-- C8 counterexample: the demo authorization code expires exactly at
time 100, yet the exchange at now = 100 succeeds instead of returning
400 invalid_grant: the expiry check of token.rs line 220 rejects only
when expires_at < now, so the claimed inclusive boundary does not hold
on the code. -/
theorem code_exchange_at_expiry_instant_succeeds :
    demoCode.expires_at = 100 ∧
    (token_handler demoDb demoRequest 100 "tokV").1 = .ok "tokV" "Bearer" 3600 :=
  ⟨rfl, by decide⟩

/-- C8 amended: with the client checks passed and the code row fetched,
the exchange is rejected as expired exactly when expires_at < now: the
boundary is exclusive, and a code whose expires_at equals now proceeds
past the expiry check. -/
theorem code_expiry_exclusive_boundary (db : Db) (req : TokenRequest)
    (now : Int) (t : String) (client : ClientRec) (auth_code : AuthCodeRec)
    (hgt : req.grant_type = "authorization_code")
    (hcl : lookup_client db req.client_id = some client)
    (hsec : client.client_secret = req.client_secret)
    (hfc : fetch_code db req.code req.client_id = some auth_code) :
    ((token_handler db req now t).1 =
        .err 400 "invalid_grant" "Authorization code has expired"
      ↔ auth_code.expires_at < now) := by
  unfold token_handler
  by_cases he : auth_code.expires_at < now
  · simp [hgt, hcl, hsec, hfc, he]
  · simp only [hgt, hcl, hsec, hfc]
    by_cases hr : auth_code.redirect_uri = req.redirect_uri
    · simp [he, hr]
    · simp [he, hr]

/-- Closed instance of the C8 amended theorem at the demo fixtures with
now equal to the expiry instant of the code. -/
theorem code_expiry_exclusive_boundary_witness :
    ((token_handler demoDb demoRequest 100 "tokV").1 =
        .err 400 "invalid_grant" "Authorization code has expired"
      ↔ demoCode.expires_at < 100) :=
  code_expiry_exclusive_boundary demoDb demoRequest 100 "tokV" demoClient demoCode
    rfl (by decide) rfl (by decide)

end Tokn
